import Mathlib

/-! Gw2Browser: format dispatch and the task scheduler of the browser window.

A shallow embedding of `src/FileReader.cpp` (`FileReader::readerForData`) and of
the task handling of `src/BrowserWindow.cpp` (`performTask`, `openFile`,
`findDatIndex`, `indexDat`, `reIndexDat`, `onExitEvt`, `onCloseEvt`,
`onPerformTaskEvt`, `onReadIndexComplete`, `onScanTaskComplete`,
`onWriteTaskCloseCompleted`, `tryClose`).

Classes whose definitions are not part of the two files (the `Task` subclasses,
`DatIndex`, `DatFile`, the reader classes, `compute_crc`) are either parameters
of the embedding or modelled from the specification; each such definition says so.
-/

namespace gw2b

/-! ## FileReader.cpp -/

/-- Enumerators of `ANetFileType` that `FileReader.cpp` names. The declaration of the
enumeration is not in the two source files; every enumerator that the file does not
name is `ANFT_Other` and takes the `default:` branch of the switch. -/
inductive ANetFileType where
  | ANFT_Unknown
  | ANFT_ATEX
  | ANFT_ATTX
  | ANFT_ATEC
  | ANFT_ATEP
  | ANFT_ATEU
  | ANFT_ATET
  | ANFT_DDS
  | ANFT_JPEG
  | ANFT_WEBP
  | ANFT_Model
  | ANFT_StringFile
  | ANFT_PackedMP3
  | ANFT_PackedOgg
  | ANFT_asndMP3
  | ANFT_Bank
  | ANFT_Other (tag : Nat)
  deriving DecidableEq, Repr

/-- Dynamic class of the object that `readerForData` allocates. -/
inductive ReaderClass where
  | FileReader
  | ImageReader
  | ModelReader
  | StringReader
  | PackedSoundReader
  | asndMP3Reader
  | SoundBankReader
  deriving DecidableEq, Repr

/-- A reader object: its dynamic class and the two members set by the
`FileReader( p_data, p_fileType )` constructor. Bytes are naturals below 256. -/
structure Reader where
  cls : ReaderClass
  m_data : List Nat
  m_fileType : ANetFileType
  deriving DecidableEq, Repr

/-- `FileReader::readerForData`. The two header checks that the function calls,
`ImageReader::isValidHeader( ptr, size )` and `StringReader::isValidHeader( ptr )`,
are defined outside the two source files and are parameters, each a predicate on
the byte buffer. -/
def readerForData (ImageReader_isValidHeader StringReader_isValidHeader : List Nat → Bool)
    (p_data : List Nat) (p_fileType : ANetFileType) : Reader :=
  let generic : Reader := ⟨ReaderClass.FileReader, p_data, p_fileType⟩
  match p_fileType with
  | .ANFT_ATEX | .ANFT_ATTX | .ANFT_ATEC | .ANFT_ATEP | .ANFT_ATEU
  | .ANFT_ATET | .ANFT_DDS | .ANFT_JPEG | .ANFT_WEBP =>
      if ImageReader_isValidHeader p_data then
        ⟨ReaderClass.ImageReader, p_data, p_fileType⟩
      else generic
  | .ANFT_Model => ⟨ReaderClass.ModelReader, p_data, p_fileType⟩
  | .ANFT_StringFile =>
      if StringReader_isValidHeader p_data then
        ⟨ReaderClass.StringReader, p_data, p_fileType⟩
      else generic
  | .ANFT_PackedMP3 | .ANFT_PackedOgg => ⟨ReaderClass.PackedSoundReader, p_data, p_fileType⟩
  | .ANFT_asndMP3 => ⟨ReaderClass.asndMP3Reader, p_data, p_fileType⟩
  | .ANFT_Bank => ⟨ReaderClass.SoundBankReader, p_data, p_fileType⟩
  | _ => generic

/-- The hints of the first group of `case` labels of `readerForData` (textures and images). -/
def isImageHint : ANetFileType → Bool
  | .ANFT_ATEX | .ANFT_ATTX | .ANFT_ATEC | .ANFT_ATEP | .ANFT_ATEU
  | .ANFT_ATET | .ANFT_DDS | .ANFT_JPEG | .ANFT_WEBP => true
  | _ => false

/-- The hints for which `readerForData` returns a specific reader straight from the
hint, with no look at the buffer. -/
def isUncheckedHint : ANetFileType → Bool
  | .ANFT_Model | .ANFT_PackedMP3 | .ANFT_PackedOgg | .ANFT_asndMP3 | .ANFT_Bank => true
  | _ => false

/-- The specific reader class that a hint stands for, `FileReader` for a hint of the
`default:` branch. -/
def hintClass : ANetFileType → ReaderClass
  | .ANFT_ATEX | .ANFT_ATTX | .ANFT_ATEC | .ANFT_ATEP | .ANFT_ATEU
  | .ANFT_ATET | .ANFT_DDS | .ANFT_JPEG | .ANFT_WEBP => .ImageReader
  | .ANFT_Model => .ModelReader
  | .ANFT_StringFile => .StringReader
  | .ANFT_PackedMP3 | .ANFT_PackedOgg => .PackedSoundReader
  | .ANFT_asndMP3 => .asndMP3Reader
  | .ANFT_Bank => .SoundBankReader
  | _ => .FileReader

/-- The dispatch guarantee in the specification's words: one header validation per
reader class (`validation c buf` says that `buf` passes the header validation of class
`c`), the dispatcher being given the image and the string-table one; whenever the
dispatcher answers with a specific class, the buffer has passed that class's validation. -/
def DispatchValidated : Prop :=
  ∀ (validation : ReaderClass → List Nat → Bool) (hint : ANetFileType) (buf : List Nat),
    (readerForData (validation .ImageReader) (validation .StringReader) buf hint).cls
        ≠ ReaderClass.FileReader →
    validation
      (readerForData (validation .ImageReader) (validation .StringReader) buf hint).cls buf
        = true

/-- The dispatch guarantee in the specification's words for one declared hint: with one
header validation per reader class, the dispatcher being given the image and the
string-table one, a specific class is answered only for a buffer that has passed the
validation of that class, and a buffer that fails the validation of the class of the
hint resolves to the generic `FileReader`. -/
def DispatchValidatedFor (hint : ANetFileType) : Prop :=
  ∀ (validation : ReaderClass → List Nat → Bool) (buf : List Nat),
    ((readerForData (validation .ImageReader) (validation .StringReader) buf hint).cls
        ≠ ReaderClass.FileReader →
      validation
        (readerForData (validation .ImageReader) (validation .StringReader) buf hint).cls buf
          = true) ∧
    (validation (hintClass hint) buf = false →
      (readerForData (validation .ImageReader) (validation .StringReader) buf hint).cls
        = ReaderClass.FileReader)

/-! ## BrowserWindow.cpp: collaborators -/

/-- Modelled from the spec: `DatIndexEntry`, whose class is not in the two source files;
an entry identifier, its file type hint and its display name. -/
structure DatIndexEntry where
  entryId : Nat
  fileType : ANetFileType
  name : String
  deriving DecidableEq, Repr

/-- Modelled from the spec: `DatIndex`, the index store, whose class is not in the two
source files: the flat entry collection, the source timestamp, the highest entry
identifier seen and the dirty flag. The category tree is left out: no function of
`BrowserWindow.cpp` reads or writes it. -/
structure DatIndex where
  entries : List DatIndexEntry
  datTimestamp : Nat
  highestMftEntry : Nat
  dirty : Bool
  deriving DecidableEq, Repr

/-- Modelled from the spec: `DatIndex::numEntries`. -/
def DatIndex.numEntries (i : DatIndex) : Nat := i.entries.length

/-- Modelled from the spec: `DatIndex::isDirty`. -/
def DatIndex.isDirty (i : DatIndex) : Bool := i.dirty

/-- Modelled from the spec: `DatIndex::clear`, "cleared and reset to empty and zero
timestamp", the highest entry identifier "reset to 0"; the store is dirty afterwards. -/
def DatIndex.clear (_i : DatIndex) : DatIndex :=
  { entries := [], datTimestamp := 0, highestMftEntry := 0, dirty := true }

/-- Modelled from the spec: `DatIndex::setDatTimestamp`; a change of the timestamp makes
the store dirty. -/
def DatIndex.setDatTimestamp (i : DatIndex) (t : Nat) : DatIndex :=
  { i with datTimestamp := t, dirty := true }

/-- Modelled from the spec: `DatFile`, the archive accessor, whose class is not in the
two source files: whether an archive is open and how many entries it has. -/
structure DatFile where
  isOpen : Bool
  numFiles : Nat
  deriving DecidableEq, Repr

/-- The completion handlers that `BrowserWindow.cpp` registers, one per lambda
`[this] ( ) { this->X( ); }` of the file. -/
inductive Handler where
  | onReadIndexComplete
  | onScanTaskComplete
  | onWriteTaskCloseCompleted
  | tryClose
  deriving DecidableEq, Repr

/-- The task classes that `BrowserWindow.cpp` instantiates, with the constructor
arguments other than the shared index and archive. -/
inductive TaskKind where
  | ReadIndexTask (indexFile : String) (datTimeStamp : Nat)
  | ScanDatTask
  | WriteIndexTask (indexFile : String)
  deriving DecidableEq, Repr

/-- Whether a task is a `WriteIndexTask`. -/
def TaskKind.isWrite : TaskKind → Bool
  | .WriteIndexTask _ => true
  | _ => false

/-- A task object. `uid` is the identity of the heap object, `state` the private state
of the subclass, `m_onComplete` the registered completion handlers. -/
structure Task (S : Type) where
  uid : Nat
  kind : TaskKind
  state : S
  m_onComplete : List Handler
  deriving DecidableEq, Repr

/-- Modelled from the spec: `Task::addOnCompleteHandler` of the `Task` base class, which
is not in the two source files: the handler is added after those already registered. -/
def Task.addOnCompleteHandler {S : Type} (t : Task S) (h : Handler) : Task S :=
  { t with m_onComplete := t.m_onComplete ++ [h] }

/-- The virtual interface of `Task`. The subclasses are not in the two source files, so
their methods are parameters. A method sees the private state of its task, the shared
index (which `init`, `perform` and `abort` may change) and the archive; it has no access
to the window, so it can neither start a task nor call a completion handler. -/
structure TaskImpl (S : Type) where
  construct : TaskKind → S
  init : TaskKind → S → DatIndex → DatFile → Bool × S × DatIndex
  perform : TaskKind → S → DatIndex → DatFile → S × DatIndex
  abort : TaskKind → S → DatIndex → S × DatIndex
  isDone : TaskKind → S → Bool
  canAbort : TaskKind → S → Bool
  maxProgress : TaskKind → S → Nat
  currentProgress : TaskKind → S → Nat
  text : TaskKind → S → String

/-- Calls that the window makes on task objects and on the outside world, in the order
they happen. `construct` is a `new XTask( ... )`, `delete` a `deletePointer`. -/
inductive Call where
  | construct (uid : Nat) (kind : TaskKind)
  | init (uid : Nat)
  | perform (uid : Nat)
  | abort (uid : Nat)
  | invokeOnCompleteHandler (uid : Nat)
  | delete (uid : Nat)
  | messageBox (text : String)
  | mkdir (dir : String)
  deriving DecidableEq, Repr

/-- The members of `ProgressStatusBar` that the window sets; the class is not in the two
source files. -/
structure ProgressStatusBar where
  shown : Bool
  maxValue : Nat
  value : Nat
  text : String
  deriving DecidableEq, Repr

/-- `ProgressStatusBar::hideProgressBar`. -/
def ProgressStatusBar.hideProgressBar (p : ProgressStatusBar) : ProgressStatusBar :=
  { p with shown := false }

/-- `ProgressStatusBar::showProgressBar`. -/
def ProgressStatusBar.showProgressBar (p : ProgressStatusBar) : ProgressStatusBar :=
  { p with shown := true }

/-- `ProgressStatusBar::setMaxValue`. -/
def ProgressStatusBar.setMaxValue (p : ProgressStatusBar) (n : Nat) : ProgressStatusBar :=
  { p with maxValue := n }

/-- What the window asks of the platform and of code outside the two source files:
`DatFile::open`, `wxFileModificationTime`, `wxStandardPaths::GetDataDir`,
`wxFileName::DirExists`, and `compute_crc` with its seed `INITIAL_CRC` from
`Imported/crc.h`. -/
structure Env where
  DatFile_open : DatFile → String → Bool × DatFile
  wxFileModificationTime : String → Nat
  GetDataDir : String
  DirExists : String → Bool
  compute_crc : Nat → List Nat → Nat → Nat
  INITIAL_CRC : Nat

/-- A `wxFileName` made of a directory and a file name. -/
structure wxFileName where
  dir : String
  name : String
  deriving DecidableEq, Repr

/-- `wxFileName::GetFullPath`. -/
def wxFileName.GetFullPath (f : wxFileName) : String := f.dir ++ "/" ++ f.name

/-- A `wxCloseEvent`: whether it can be vetoed, and whether the handler vetoed or
skipped it. -/
structure wxCloseEvent where
  m_canVeto : Bool
  m_veto : Bool
  m_skipped : Bool
  deriving DecidableEq, Repr

/-- `wxCloseEvent::CanVeto`. -/
def wxCloseEvent.CanVeto (e : wxCloseEvent) : Bool := e.m_canVeto

/-- `wxCloseEvent::Veto`. -/
def wxCloseEvent.Veto (e : wxCloseEvent) : wxCloseEvent := { e with m_veto := true }

/-- `wxEvent::Skip`. -/
def wxCloseEvent.Skip (e : wxCloseEvent) : wxCloseEvent := { e with m_skipped := true }

/-- The members of `BrowserWindow` that the task handling reads or writes.
`idleHandlers` counts the connections of `onPerformTaskEvt` to `wxEVT_IDLE`, `enabled`
is cleared by `Disable( )`, `destroyed` is set when a close event was skipped, so that
the frame's default close handler destroys the window, `heapNext` is the identity that
the next `new` gives out, `calls` is the record of calls made so far. -/
structure BrowserWindow (S : Type) where
  m_index : DatIndex
  m_progress : ProgressStatusBar
  m_currentTask : Option (Task S)
  m_datFile : DatFile
  m_datPath : String
  idleHandlers : Nat
  enabled : Bool
  destroyed : Bool
  heapNext : Nat
  calls : List Call
  deriving DecidableEq, Repr

/-! ## Formatting of the index file name -/

/-- One lowercase hexadecimal digit. -/
def hexDigit (d : Nat) : Char :=
  if d < 10 then Char.ofNat (48 + d) else Char.ofNat (87 + d)

/-- Digits of `n` in base 16, most significant first, in front of `acc`; at most `fuel`
digits are produced. -/
def formatHexAux : Nat → Nat → List Char → List Char
  | 0, _, acc => acc
  | fuel + 1, n, acc =>
      if n / 16 = 0 then hexDigit (n % 16) :: acc
      else formatHexAux fuel (n / 16) (hexDigit (n % 16) :: acc)

/-- The conversion `%x` of `wxString::Format` applied to an `unsigned int`: lowercase
hexadecimal, no prefix, no padding. Eight digits are enough for a 32-bit value. -/
def formatHex (n : Nat) : String := String.mk (formatHexAux 8 n [])

/-- The value of one hexadecimal digit, lowercase letters for ten to fifteen. -/
def hexDigitValue (c : Char) : Nat :=
  if c.toNat < 58 then c.toNat - 48 else c.toNat - 87

/-- The number that a string of hexadecimal digits denotes, most significant digit
first, continuing from `v`. -/
def hexValueFrom (v : Nat) (cs : List Char) : Nat :=
  cs.foldl (fun acc c => 16 * acc + hexDigitValue c) v

/-- The sixteen lowercase hexadecimal digits. -/
def hexAlphabet : List Char := "0123456789abcdef".toList

/-- `wxString::Format( wxT( "%x.idx" ), ( uint ) datPathCrc )`; the cast keeps the low
32 bits. -/
def indexFileNameOfCrc (datPathCrc : Nat) : String :=
  formatHex (datPathCrc % 2 ^ 32) ++ ".idx"

/-- The bytes handed to `compute_crc` for a path: `m_datPath.char_str( )`, one code per
character. -/
def char_str (path : String) : List Nat := path.toList.map Char.toNat

/-! ## BrowserWindow.cpp: operations -/

section Operations

variable {S : Type}

/-- A `new XTask( ... )`: the object gets the next heap identity and the state that the
subclass constructor builds; no completion handler is registered yet. -/
def newTask (impl : TaskImpl S) (kind : TaskKind) (w : BrowserWindow S) :
    Task S × BrowserWindow S :=
  ({ uid := w.heapNext, kind := kind, state := impl.construct kind, m_onComplete := [] },
   { w with heapNext := w.heapNext + 1, calls := w.calls ++ [Call.construct w.heapNext kind] })

/-- `BrowserWindow::performTask`. `deletePointer( p )` deletes the object and resets
`p` to null. -/
def performTask (impl : TaskImpl S) (p_task : Task S) (w : BrowserWindow S) :
    Bool × BrowserWindow S :=
  -- Already have a task running?
  let afterAbort : Option (BrowserWindow S) :=
    match w.m_currentTask with
    | none => some w
    | some cur =>
        if impl.canAbort cur.kind cur.state then
          let a := impl.abort cur.kind cur.state w.m_index
          some { w with
            m_index := a.2
            m_currentTask := none
            idleHandlers := w.idleHandlers - 1
            m_progress := w.m_progress.hideProgressBar
            calls := w.calls ++ [Call.abort cur.uid, Call.delete cur.uid] }
        else none
  match afterAbort with
  | none => (false, { w with calls := w.calls ++ [Call.delete p_task.uid] })
  | some w1 =>
      -- Initialize succeeded?
      let r := impl.init p_task.kind p_task.state w1.m_index w1.m_datFile
      let t : Task S := { p_task with state := r.2.1 }
      if r.1 then
        (true, { w1 with
          m_index := r.2.2
          m_currentTask := some t
          idleHandlers := w1.idleHandlers + 1
          m_progress := (w1.m_progress.setMaxValue (impl.maxProgress t.kind t.state)).showProgressBar
          calls := w1.calls ++ [Call.init t.uid] })
      else
        (false, { w1 with
          m_index := r.2.2
          m_currentTask := none
          calls := w1.calls ++ [Call.init t.uid, Call.delete t.uid] })

/-- `BrowserWindow::findDatIndex`. -/
def findDatIndex (env : Env) (w : BrowserWindow S) : wxFileName :=
  let configPath := env.GetDataDir
  let datPathCrc := env.compute_crc env.INITIAL_CRC (char_str w.m_datPath) w.m_datPath.length
  let indexFileName := indexFileNameOfCrc datPathCrc
  { dir := configPath, name := indexFileName }

/-- `BrowserWindow::indexDat`. -/
def indexDat (impl : TaskImpl S) (w : BrowserWindow S) : BrowserWindow S :=
  let n := newTask impl TaskKind.ScanDatTask w
  let scanTask := n.1.addOnCompleteHandler Handler.onScanTaskComplete
  (performTask impl scanTask n.2).2

/-- `BrowserWindow::reIndexDat`. -/
def reIndexDat (env : Env) (impl : TaskImpl S) (w : BrowserWindow S) : BrowserWindow S :=
  let w1 := { w with m_index := w.m_index.clear }
  let w2 := { w1 with
    m_index := w1.m_index.setDatTimestamp (env.wxFileModificationTime w1.m_datPath) }
  indexDat impl w2

/-- `BrowserWindow::openFile`. -/
def openFile (env : Env) (impl : TaskImpl S) (p_path : String) (w : BrowserWindow S) :
    BrowserWindow S :=
  -- Try to open the file
  let o := env.DatFile_open w.m_datFile p_path
  if !o.1 then
    { w with
      m_datFile := o.2
      calls := w.calls ++ [Call.messageBox ("Failed to open file: " ++ p_path)] }
  else
    let w1 := { w with m_datFile := o.2, m_datPath := p_path }
    -- Open the index file
    let datTimeStamp := env.wxFileModificationTime p_path
    let indexFile := findDatIndex env w1
    let n := newTask impl (TaskKind.ReadIndexTask indexFile.GetFullPath datTimeStamp) w1
    -- Start reading the index
    let readIndexTask := n.1.addOnCompleteHandler Handler.onReadIndexComplete
    let r := performTask impl readIndexTask n.2
    if !r.1 then reIndexDat env impl r.2 else r.2

/-- `BrowserWindow::onCloseEvt`; the result is the event as the handler leaves it and
the window. -/
def onCloseEvt (env : Env) (impl : TaskImpl S) (p_event : wxCloseEvent) (w : BrowserWindow S) :
    wxCloseEvent × BrowserWindow S :=
  -- Drop out if we can't cancel the window closing
  if !p_event.CanVeto then (p_event.Skip, w)
  else
    -- Cancel current task if possible.
    let afterCancel : Option (BrowserWindow S) :=
      match w.m_currentTask with
      | none => some w
      | some cur =>
          if impl.canAbort cur.kind cur.state then
            let a := impl.abort cur.kind cur.state w.m_index
            some { w with
              m_index := a.2
              m_currentTask := none
              idleHandlers := w.idleHandlers - 1
              calls := w.calls ++ [Call.abort cur.uid, Call.delete cur.uid] }
          else none
    match afterCancel with
    | none =>
        (p_event.Veto,
         { w with
           enabled := false
           m_currentTask := w.m_currentTask.map (fun cur => cur.addOnCompleteHandler Handler.tryClose) })
    | some w1 =>
        -- Add a write task if the index is dirty
        if w1.m_currentTask.isNone && w1.m_index.isDirty then
          let indexPath := findDatIndex env w1
          let w2 :=
            if !env.DirExists indexPath.dir then
              { w1 with calls := w1.calls ++ [Call.mkdir indexPath.dir] }
            else w1
          let n := newTask impl (TaskKind.WriteIndexTask indexPath.GetFullPath) w2
          let writeTask := n.1.addOnCompleteHandler Handler.onWriteTaskCloseCompleted
          let r := performTask impl writeTask n.2
          if r.1 then (p_event.Veto, { r.2 with enabled := false })
          else (p_event.Skip, r.2)
        else (p_event.Skip, w1)

/-- `wxWindow::Close( force )` of wxWidgets: a close event that can be vetoed exactly
when `force` is false is handed to `onCloseEvt`; an event that the handler skipped
reaches the frame's default close handler, which destroys the window. -/
def Close (env : Env) (impl : TaskImpl S) (force : Bool) (w : BrowserWindow S) :
    BrowserWindow S :=
  let r := onCloseEvt env impl { m_canVeto := !force, m_veto := false, m_skipped := false } w
  if r.1.m_skipped then { r.2 with destroyed := true } else r.2

/-- `BrowserWindow::onReadIndexComplete`. -/
def onReadIndexComplete (env : Env) (impl : TaskImpl S) (w : BrowserWindow S) :
    BrowserWindow S :=
  -- If it failed, it was cleared.
  if w.m_index.datTimestamp == 0 || w.m_index.numEntries == 0 then
    reIndexDat env impl w
  else
    -- Was it complete?
    let isComplete := w.m_index.highestMftEntry == w.m_datFile.numFiles
    if !isComplete then indexDat impl w else w

/-- `BrowserWindow::onScanTaskComplete`. -/
def onScanTaskComplete (env : Env) (impl : TaskImpl S) (w : BrowserWindow S) :
    BrowserWindow S :=
  let n := newTask impl (TaskKind.WriteIndexTask (findDatIndex env w).GetFullPath) w
  (performTask impl n.1 n.2).2

/-- `BrowserWindow::onWriteTaskCloseCompleted`. -/
def onWriteTaskCloseCompleted (env : Env) (impl : TaskImpl S) (w : BrowserWindow S) :
    BrowserWindow S :=
  Close env impl true w

/-- `BrowserWindow::tryClose`. -/
def tryClose (env : Env) (impl : TaskImpl S) (w : BrowserWindow S) : BrowserWindow S :=
  Close env impl false w

/-- The body of one registered lambda. -/
def runHandler (env : Env) (impl : TaskImpl S) : Handler → BrowserWindow S → BrowserWindow S
  | .onReadIndexComplete => onReadIndexComplete env impl
  | .onScanTaskComplete => onScanTaskComplete env impl
  | .onWriteTaskCloseCompleted => onWriteTaskCloseCompleted env impl
  | .tryClose => tryClose env impl

/-- Modelled from the spec: `Task::invokeOnCompleteHandler` of the `Task` base class,
which is not in the two source files: one invocation calls every registered handler
once, in the order of registration. -/
def invokeOnCompleteHandler (env : Env) (impl : TaskImpl S) (t : Task S) (w : BrowserWindow S) :
    BrowserWindow S :=
  t.m_onComplete.foldl (fun acc h => runHandler env impl h acc)
    { w with calls := w.calls ++ [Call.invokeOnCompleteHandler t.uid] }

end Operations

/-- The `ScanDatTask` object that `indexDat` builds in the window `w`, with its completion
handler registered. -/
def scanTaskIn {S : Type} (impl : TaskImpl S) (w : BrowserWindow S) : Task S :=
  { uid := w.heapNext
    kind := TaskKind.ScanDatTask
    state := impl.construct TaskKind.ScanDatTask
    m_onComplete := [Handler.onScanTaskComplete] }

/-- The window after a `new` of a task of class `kind`. -/
def allocated {S : Type} (kind : TaskKind) (w : BrowserWindow S) : BrowserWindow S :=
  { w with heapNext := w.heapNext + 1, calls := w.calls ++ [Call.construct w.heapNext kind] }

/-- Every task object of the window, and every object allocated from now on, has an
identity of at least `n`. -/
def FreshFrom {S : Type} (n : Nat) (w : BrowserWindow S) : Prop :=
  n ≤ w.heapNext ∧ ∀ t, w.m_currentTask = some t → n ≤ t.uid

/-! ## Observations on the record of calls -/

/-- The window `w2` has the record of calls of `w1` followed by calls that are neither a
`perform( )` nor an invocation of completion handlers. -/
def Quiet {S : Type} (w1 w2 : BrowserWindow S) : Prop :=
  ∃ rest, w2.calls = w1.calls ++ rest ∧
    ∀ c, c ∈ rest → ∀ u, c ≠ Call.perform u ∧ c ≠ Call.invokeOnCompleteHandler u

/-- The calls that only the scheduler step `onPerformTaskEvt` makes: `perform( )` and the
invocation of the completion handlers. -/
def isStepCall : Call → Bool
  | Call.perform _ => true
  | Call.invokeOnCompleteHandler _ => true
  | _ => false

/-- The scheduler-step calls of a record, in order. -/
def stepCalls (calls : List Call) : List Call := calls.filter isStepCall

/-- How often `perform( )` was called on the task `uid`. -/
def performCount (uid : Nat) (calls : List Call) : Nat :=
  calls.count (Call.perform uid)

/-- How often the completion handlers of the task `uid` were invoked. -/
def invokeCount (uid : Nat) (calls : List Call) : Nat :=
  calls.count (Call.invokeOnCompleteHandler uid)

/-- One shift-and-conditional-xor step of the reflected CRC-32 polynomial `0xEDB88320`. -/
def crc32Bit (c : Nat) : Nat :=
  if c % 2 = 1 then (c / 2) ^^^ 0xEDB88320 else c / 2

/-- One byte fed into the CRC register. -/
def crc32Byte (c b : Nat) : Nat :=
  crc32Bit (crc32Bit (crc32Bit (crc32Bit (crc32Bit (crc32Bit (crc32Bit (crc32Bit
    (c ^^^ (b % 256)))))))))

/-- Modelled from the spec: `compute_crc` of `Imported/crc.h`, which is not in the two
source files, as the "standard CRC-32 with a fixed initial seed": the register starts
at the seed, takes the first `len` bytes and is complemented at the end. -/
def crc32 (seed : Nat) (data : List Nat) (len : Nat) : Nat :=
  ((data.take len).foldl crc32Byte (seed % 2 ^ 32)) ^^^ 0xFFFFFFFF

/-- A platform on which every archive opens with 100 entries, every file was modified at
time 1700000000, the configuration directory exists, and `compute_crc` is `crc32` with
the seed `0xFFFFFFFF`. -/
def sampleEnv : Env :=
  { DatFile_open := fun _ _ => (true, { isOpen := true, numFiles := 100 })
    wxFileModificationTime := fun _ => 1700000000
    GetDataDir := "/usr/share/gw2browser"
    DirExists := fun _ => true
    compute_crc := crc32
    INITIAL_CRC := 0xFFFFFFFF }

/-- Private state of a scripted task: the steps left, whether `init( )` succeeds and
whether the task may be aborted. -/
structure Script where
  remaining : Nat
  initOk : Bool
  abortable : Bool
  deriving DecidableEq, Repr

/-- Task classes that follow their script: `perform( )` does one step and a
`WriteIndexTask` that finishes marks the index clean, `abort( )` drops the steps left,
`isDone( )` holds when no step is left. `script` is the state each constructor builds. -/
def scriptedImpl (script : TaskKind → Script) : TaskImpl Script :=
  { construct := script
    init := fun _ s idx _ => (s.initOk, s, idx)
    perform := fun k s idx _ =>
      ({ s with remaining := s.remaining - 1 },
       if k.isWrite && s.remaining ≤ 1 then { idx with dirty := false } else idx)
    abort := fun _ s idx => ({ s with remaining := 0 }, idx)
    isDone := fun _ s => s.remaining == 0
    canAbort := fun _ s => s.abortable
    maxProgress := fun _ s => s.remaining
    currentProgress := fun _ _ => 0
    text := fun _ _ => "" }

/-- Scripts in which every `init( )` succeeds, reading and writing the index take one
step and cannot be aborted, and a scan takes three steps and can. -/
def okScript : TaskKind → Script
  | .ReadIndexTask _ _ => { remaining := 1, initOk := true, abortable := false }
  | .ScanDatTask => { remaining := 3, initOk := true, abortable := true }
  | .WriteIndexTask _ => { remaining := 1, initOk := true, abortable := false }

/-- Scripts in which no `init( )` succeeds. -/
def failScript : TaskKind → Script
  | _ => { remaining := 1, initOk := false, abortable := false }

/-- An index with two entries, read at time 5, complete up to entry 100 and dirty. -/
def sampleIndex : DatIndex :=
  { entries := [⟨0, .ANFT_ATEX, "0"⟩, ⟨1, .ANFT_Model, "1"⟩]
    datTimestamp := 5
    highestMftEntry := 100
    dirty := true }

/-- A window on the archive `/gw2/g.dat` with `sampleIndex`, no task active and one task
object allocated so far. -/
def sampleWindow : BrowserWindow Script :=
  { m_index := sampleIndex
    m_progress := { shown := false, maxValue := 0, value := 0, text := "" }
    m_currentTask := none
    m_datFile := { isOpen := true, numFiles := 100 }
    m_datPath := "/gw2/g.dat"
    idleHandlers := 0
    enabled := true
    destroyed := false
    heapNext := 1
    calls := [] }

/-- An active scan task, object 0, that can be aborted. -/
def sampleScanTask : Task Script :=
  { uid := 0, kind := .ScanDatTask, state := { remaining := 3, initOk := true, abortable := true },
    m_onComplete := [.onScanTaskComplete] }

/-- An active write task, object 0, that cannot be aborted. -/
def sampleWriteTask : Task Script :=
  { uid := 0, kind := .WriteIndexTask "/usr/share/gw2browser/5e2b838.idx",
    state := { remaining := 1, initOk := true, abortable := false }, m_onComplete := [] }

/-- A read task, object 1, whose `init( )` fails (no cache file). -/
def sampleFailingReadTask : Task Script :=
  { uid := 1, kind := .ReadIndexTask "/usr/share/gw2browser/5e2b838.idx" 1700000000,
    state := { remaining := 1, initOk := false, abortable := false },
    m_onComplete := [.onReadIndexComplete] }

/-- The window `sampleWindow` while `t` is the active task. -/
def sampleWindowWith (t : Task Script) : BrowserWindow Script :=
  { sampleWindow with m_currentTask := some t, idleHandlers := 1 }

/-! # Theorems -/

set_option maxRecDepth 200000

/-! ## Format dispatch -/

/-- C1 (as stated, refuted): with header validations that reject every buffer, the
empty buffer declared as a model still resolves to `ModelReader`, so the dispatch
guarantee `DispatchValidated` does not hold. -/
theorem readerForData_model_not_validated :
    (readerForData (fun _ => false) (fun _ => false) [] ANetFileType.ANFT_Model).cls
        = ReaderClass.ModelReader ∧
      ¬ DispatchValidated := by
  refine ⟨rfl, fun h => ?_⟩
  have h1 := h (fun _ _ => false) ANetFileType.ANFT_Model [] (by decide)
  exact Bool.false_ne_true h1

/-- C1 (amended): for every declared hint other than the model, packed sound, asnd MP3
and sound bank hints, and every buffer, `readerForData` returns a specific reader only
if the buffer has passed that reader's header validation, and a buffer that fails the
header validation of the class of its hint resolves to the generic `FileReader`
(`DispatchValidatedFor`). In detail: the answer is always the generic reader or the
reader of the class of the hint; `ImageReader` is answered only for an image hint whose
buffer `ImageReader::isValidHeader` accepts and `StringReader` only for the string-table
hint whose buffer `StringReader::isValidHeader` accepts, and both are answered then; a
buffer that fails the check of an image hint or of the string-table hint resolves to the
generic `FileReader`, as does every buffer of a hint that stands for no specific reader.
For the model, packed sound, asnd MP3 and sound bank hints the specific reader is
returned whatever the buffer holds. The reader always keeps the buffer and the hint. -/
theorem readerForData_checks_image_and_string
    (imageValid stringValid : List Nat → Bool) (buf : List Nat) (hint : ANetFileType) :
    ((readerForData imageValid stringValid buf hint).cls = ReaderClass.ImageReader →
        isImageHint hint = true ∧ imageValid buf = true) ∧
    ((readerForData imageValid stringValid buf hint).cls = ReaderClass.StringReader →
        hint = ANetFileType.ANFT_StringFile ∧ stringValid buf = true) ∧
    (isImageHint hint = true → imageValid buf = false →
        (readerForData imageValid stringValid buf hint).cls = ReaderClass.FileReader) ∧
    (hint = ANetFileType.ANFT_StringFile → stringValid buf = false →
        (readerForData imageValid stringValid buf hint).cls = ReaderClass.FileReader) ∧
    (isUncheckedHint hint = true →
        (readerForData imageValid stringValid buf hint).cls = hintClass hint ∧
        hintClass hint ≠ ReaderClass.FileReader) ∧
    (readerForData imageValid stringValid buf hint).m_data = buf ∧
    (readerForData imageValid stringValid buf hint).m_fileType = hint ∧
    ((readerForData imageValid stringValid buf hint).cls = ReaderClass.FileReader ∨
      (readerForData imageValid stringValid buf hint).cls = hintClass hint) ∧
    (isImageHint hint = true → imageValid buf = true →
        (readerForData imageValid stringValid buf hint).cls = ReaderClass.ImageReader) ∧
    (hint = ANetFileType.ANFT_StringFile → stringValid buf = true →
        (readerForData imageValid stringValid buf hint).cls = ReaderClass.StringReader) ∧
    (hintClass hint = ReaderClass.FileReader →
        (readerForData imageValid stringValid buf hint).cls = ReaderClass.FileReader) ∧
    (isUncheckedHint hint = false → DispatchValidatedFor hint) := by
  refine ⟨?_, ?_, ?_, ?_, ?_, ?_, ?_, ?_, ?_, ?_, ?_, ?_⟩
  case refine_12 =>
    intro hu validation b
    cases hint <;> cases hi : validation ReaderClass.ImageReader b <;>
      cases hs : validation ReaderClass.StringReader b <;>
      simp [readerForData, isUncheckedHint, hintClass, hi, hs] at hu ⊢
  all_goals
    cases hint <;> cases hi : imageValid buf <;> cases hs : stringValid buf <;>
      simp [readerForData, isImageHint, isUncheckedHint, hintClass, hi, hs]

/-- Witness for C1 (amended): a DDS hint whose buffer fails the image check, a packed Ogg
hint, and the guarantee for the DDS hint with validations that accept buffers of four
bytes only. -/
theorem readerForData_checks_image_and_string_witness :
    (readerForData (fun b => b.length == 4) (fun _ => false) [1, 2] ANetFileType.ANFT_DDS).cls
        = ReaderClass.FileReader ∧
    (readerForData (fun b => b.length == 4) (fun _ => false) [1, 2]
        ANetFileType.ANFT_PackedOgg).cls = ReaderClass.PackedSoundReader ∧
    ((readerForData (fun b => b.length == 4) (fun b => b.length == 4) [1, 2, 3, 4]
        ANetFileType.ANFT_DDS).cls ≠ ReaderClass.FileReader →
      (fun (_ : ReaderClass) (b : List Nat) => b.length == 4)
        (readerForData (fun b => b.length == 4) (fun b => b.length == 4) [1, 2, 3, 4]
          ANetFileType.ANFT_DDS).cls [1, 2, 3, 4] = true) :=
  ⟨(readerForData_checks_image_and_string (fun b => b.length == 4) (fun _ => false) [1, 2]
      ANetFileType.ANFT_DDS).2.2.1 (by decide) (by decide),
   ((readerForData_checks_image_and_string (fun b => b.length == 4) (fun _ => false) [1, 2]
      ANetFileType.ANFT_PackedOgg).2.2.2.2.1 (by decide)).1,
   ((readerForData_checks_image_and_string (fun b => b.length == 4) (fun _ => false) [1, 2]
      ANetFileType.ANFT_DDS).2.2.2.2.2.2.2.2.2.2.2 (by decide)
      (fun _ b => b.length == 4) [1, 2, 3, 4]).1⟩

/-! ## The scheduler: `performTask` -/

section Scheduler

variable {S : Type}

/-- C2: while a task that cannot be aborted is active, `performTask` returns false, the
window is unchanged but for the deletion of the new task recorded as its only call: the
active task is the same object in the same state, no `abort( )` is called on it and no
`init( )` on the new task. -/
theorem performTask_rejects_while_not_abortable (impl : TaskImpl S) (p_task cur : Task S)
    (w : BrowserWindow S) (hcur : w.m_currentTask = some cur)
    (hno : impl.canAbort cur.kind cur.state = false) :
    (performTask impl p_task w).1 = false ∧
    (performTask impl p_task w).2 = { w with calls := w.calls ++ [Call.delete p_task.uid] } ∧
    (performTask impl p_task w).2.m_currentTask = some cur ∧
    (performTask impl p_task w).2.m_index = w.m_index ∧
    (performTask impl p_task w).2.calls = w.calls ++ [Call.delete p_task.uid] := by
  simp [performTask, hcur, hno]

/-- Witness for C2: a scan requested while the write task of `sampleWriteTask` is active. -/
theorem performTask_rejects_while_not_abortable_witness :
    (performTask (scriptedImpl okScript) sampleScanTask (sampleWindowWith sampleWriteTask)).1
        = false ∧
    (performTask (scriptedImpl okScript) sampleScanTask
        (sampleWindowWith sampleWriteTask)).2.m_currentTask = some sampleWriteTask :=
  ⟨(performTask_rejects_while_not_abortable (scriptedImpl okScript) sampleScanTask
      sampleWriteTask (sampleWindowWith sampleWriteTask) rfl rfl).1,
   (performTask_rejects_while_not_abortable (scriptedImpl okScript) sampleScanTask
      sampleWriteTask (sampleWindowWith sampleWriteTask) rfl rfl).2.2.1⟩

/-- The invocation count reads only the scheduler-step calls. -/
theorem invokeCount_stepCalls (u : Nat) (calls : List Call) :
    invokeCount u (stepCalls calls) = invokeCount u calls := by
  unfold invokeCount stepCalls
  exact List.count_filter (by rfl)

/-- The count of `perform( )` calls reads only the scheduler-step calls. -/
theorem performCount_stepCalls (u : Nat) (calls : List Call) :
    performCount u (stepCalls calls) = performCount u calls := by
  unfold performCount stepCalls
  exact List.count_filter (by rfl)

/-- Records with the same scheduler-step calls have the same invocation counts. -/
theorem invokeCount_congr (u : Nat) (a b : List Call) (h : stepCalls a = stepCalls b) :
    invokeCount u a = invokeCount u b := by
  rw [← invokeCount_stepCalls u a, ← invokeCount_stepCalls u b, h]

/-- Records with the same scheduler-step calls have the same counts of `perform( )`. -/
theorem performCount_congr (u : Nat) (a b : List Call) (h : stepCalls a = stepCalls b) :
    performCount u a = performCount u b := by
  rw [← performCount_stepCalls u a, ← performCount_stepCalls u b, h]

/-- `performTask` never calls `perform( )` and never invokes a completion handler. -/
theorem performTask_stepCalls (impl : TaskImpl S) (p_task : Task S) (w : BrowserWindow S) :
    stepCalls (performTask impl p_task w).2.calls = stepCalls w.calls := by
  unfold performTask
  cases hc : w.m_currentTask with
  | none =>
      by_cases hi : (impl.init p_task.kind p_task.state w.m_index w.m_datFile).1 = true <;>
        simp [hi, stepCalls, List.filter_append, isStepCall]
  | some cur =>
      by_cases ha : impl.canAbort cur.kind cur.state = true
      · by_cases hi : (impl.init p_task.kind p_task.state
            (impl.abort cur.kind cur.state w.m_index).2 w.m_datFile).1 = true <;>
          simp [ha, hi, stepCalls, List.filter_append, isStepCall]
      · simp [ha, stepCalls, List.filter_append, isStepCall]

/-- `performTask` never invokes a completion handler. -/
theorem performTask_invokeCount (impl : TaskImpl S) (p_task : Task S) (w : BrowserWindow S)
    (u : Nat) :
    invokeCount u (performTask impl p_task w).2.calls = invokeCount u w.calls :=
  invokeCount_congr u _ _ (performTask_stepCalls impl p_task w)

/-- A task that `performTask` accepts is the active task afterwards, in the state its
`init( )` left it in. -/
theorem performTask_accepted (impl : TaskImpl S) (p_task : Task S) (w : BrowserWindow S)
    (hok : (performTask impl p_task w).1 = true) :
    ∃ st, (performTask impl p_task w).2.m_currentTask = some { p_task with state := st } := by
  unfold performTask at hok ⊢
  cases hc : w.m_currentTask with
  | none =>
      by_cases hi : (impl.init p_task.kind p_task.state w.m_index w.m_datFile).1 = true
      · exact ⟨(impl.init p_task.kind p_task.state w.m_index w.m_datFile).2.1, by simp [hi]⟩
      · simp [hc, hi] at hok
  | some cur =>
      by_cases ha : impl.canAbort cur.kind cur.state = true
      · by_cases hi : (impl.init p_task.kind p_task.state
            (impl.abort cur.kind cur.state w.m_index).2 w.m_datFile).1 = true
        · exact ⟨(impl.init p_task.kind p_task.state
            (impl.abort cur.kind cur.state w.m_index).2 w.m_datFile).2.1, by simp [ha, hi]⟩
        · simp [hc, ha, hi] at hok
      · simp [hc, ha] at hok

/-- C3 (as stated, refuted): the active scan can be aborted, and the new read task's
`init( )` fails: the scan is aborted and deleted, the request returns false and no task
is active afterwards, so the new task did not become the active task. -/
theorem performTask_new_task_not_active :
    (scriptedImpl okScript).canAbort sampleScanTask.kind sampleScanTask.state = true ∧
    (performTask (scriptedImpl okScript) sampleFailingReadTask
        (sampleWindowWith sampleScanTask)).1 = false ∧
    (performTask (scriptedImpl okScript) sampleFailingReadTask
        (sampleWindowWith sampleScanTask)).2.m_currentTask = none ∧
    (performTask (scriptedImpl okScript) sampleFailingReadTask
        (sampleWindowWith sampleScanTask)).2.m_currentTask ≠ some sampleFailingReadTask ∧
    (performTask (scriptedImpl okScript) sampleFailingReadTask
        (sampleWindowWith sampleScanTask)).2.calls
      = [Call.abort 0, Call.delete 0, Call.init 1, Call.delete 1] := by
  decide

/-- C3 (amended): while a task that can be aborted is active, `performTask` calls
`abort( )` on it and deletes it without invoking any completion handler, then calls
`init( )` on the new task; the new task becomes the active task, and the request
returns true, exactly when that `init( )` succeeds; when it fails the new task is
deleted, the request returns false and no task is active. -/
theorem performTask_replaces_abortable (impl : TaskImpl S) (p_task cur : Task S)
    (w : BrowserWindow S) (hcur : w.m_currentTask = some cur)
    (hyes : impl.canAbort cur.kind cur.state = true) :
    (performTask impl p_task w).1
      = (impl.init p_task.kind p_task.state
          (impl.abort cur.kind cur.state w.m_index).2 w.m_datFile).1 ∧
    (performTask impl p_task w).2.m_currentTask
      = (if (impl.init p_task.kind p_task.state
            (impl.abort cur.kind cur.state w.m_index).2 w.m_datFile).1 = true
         then some { p_task with state := (impl.init p_task.kind p_task.state
            (impl.abort cur.kind cur.state w.m_index).2 w.m_datFile).2.1 }
         else none) ∧
    (performTask impl p_task w).2.calls
      = w.calls ++ [Call.abort cur.uid, Call.delete cur.uid, Call.init p_task.uid]
          ++ (if (impl.init p_task.kind p_task.state
                (impl.abort cur.kind cur.state w.m_index).2 w.m_datFile).1 = true
              then [] else [Call.delete p_task.uid]) ∧
    (∀ u, invokeCount u (performTask impl p_task w).2.calls = invokeCount u w.calls) := by
  refine ⟨?_, ?_, ?_, fun u => performTask_invokeCount impl p_task w u⟩ <;>
    by_cases hi : (impl.init p_task.kind p_task.state
        (impl.abort cur.kind cur.state w.m_index).2 w.m_datFile).1 = true <;>
    simp [performTask, hcur, hyes, hi]

/-- Witness for C3 (amended): a write task replaces the active scan of `sampleScanTask`. -/
theorem performTask_replaces_abortable_witness :
    (performTask (scriptedImpl okScript) { sampleWriteTask with uid := 1 }
        (sampleWindowWith sampleScanTask)).1 = true ∧
    (performTask (scriptedImpl okScript) { sampleWriteTask with uid := 1 }
        (sampleWindowWith sampleScanTask)).2.m_currentTask
      = some { sampleWriteTask with uid := 1 } :=
  ⟨(performTask_replaces_abortable (scriptedImpl okScript) { sampleWriteTask with uid := 1 }
      sampleScanTask (sampleWindowWith sampleScanTask) rfl rfl).1,
   (performTask_replaces_abortable (scriptedImpl okScript) { sampleWriteTask with uid := 1 }
      sampleScanTask (sampleWindowWith sampleScanTask) rfl rfl).2.1⟩

end Scheduler

/-! ## The name of the index file -/

section IndexFileName

variable {S : Type}

/-- Every digit below sixteen is rendered as a lowercase hexadecimal character. -/
theorem hexDigit_mem (d : Nat) (hd : d < 16) : hexDigit d ∈ hexAlphabet := by
  interval_cases d <;> decide

/-- The value of the character of a digit is the digit. -/
theorem hexDigitValue_hexDigit (d : Nat) (hd : d < 16) : hexDigitValue (hexDigit d) = d := by
  interval_cases d <;> decide

/-- The digits that `formatHexAux` puts in front of `acc` denote `n`. -/
theorem formatHexAux_value (fuel : Nat) :
    ∀ (n : Nat) (acc : List Char), n < 16 ^ fuel → 0 < fuel →
      hexValueFrom 0 (formatHexAux fuel n acc) = hexValueFrom n acc := by
  induction fuel with
  | zero => intro n acc _ h; exact absurd h (Nat.lt_irrefl 0)
  | succ fuel ih =>
      intro n acc hn _
      unfold formatHexAux
      by_cases h0 : n / 16 = 0
      · have hlt : n < 16 := by omega
        simp only [h0, if_true]
        simp [hexValueFrom, Nat.mod_eq_of_lt hlt, hexDigitValue_hexDigit n hlt]
      · simp only [h0, if_false]
        have hf : 0 < fuel := by
          rcases Nat.eq_zero_or_pos fuel with h | h
          · subst h; simp at hn; omega
          · exact h
        have hdiv : n / 16 < 16 ^ fuel := by
          rw [Nat.div_lt_iff_lt_mul (by norm_num)]
          rw [pow_succ] at hn
          exact hn
        rw [ih (n / 16) _ hdiv hf]
        simp only [hexValueFrom, List.foldl_cons,
          hexDigitValue_hexDigit (n % 16) (Nat.mod_lt _ (by norm_num))]
        congr 1
        omega

/-- The number of digits that `formatHexAux` puts in front of `acc`. -/
theorem formatHexAux_length (fuel : Nat) :
    ∀ (n : Nat) (acc : List Char), n < 16 ^ fuel → 0 < fuel →
      (formatHexAux fuel n acc).length = Nat.log 16 n + 1 + acc.length := by
  induction fuel with
  | zero => intro n acc _ h; exact absurd h (Nat.lt_irrefl 0)
  | succ fuel ih =>
      intro n acc hn _
      unfold formatHexAux
      by_cases h0 : n / 16 = 0
      · have hlt : n < 16 := by omega
        simp only [h0, if_true, List.length_cons, Nat.log_of_lt hlt]
        omega
      · simp only [h0, if_false]
        have hge : 16 ≤ n := by omega
        have hf : 0 < fuel := by
          rcases Nat.eq_zero_or_pos fuel with h | h
          · subst h; simp at hn; omega
          · exact h
        have hdiv : n / 16 < 16 ^ fuel := by
          rw [Nat.div_lt_iff_lt_mul (by norm_num)]
          rw [pow_succ] at hn
          exact hn
        rw [ih (n / 16) _ hdiv hf, List.length_cons,
          Nat.log_of_one_lt_of_le (by norm_num : 1 < 16) hge]
        omega

/-- Every character that `formatHexAux` puts in front of `acc` is a lowercase
hexadecimal digit. -/
theorem formatHexAux_mem (fuel : Nat) :
    ∀ (n : Nat) (acc : List Char) (c : Char), c ∈ formatHexAux fuel n acc →
      c ∈ hexAlphabet ∨ c ∈ acc := by
  induction fuel with
  | zero => intro n acc c h; exact Or.inr h
  | succ fuel ih =>
      intro n acc c h
      unfold formatHexAux at h
      by_cases h0 : n / 16 = 0
      · simp only [h0, if_true, List.mem_cons] at h
        rcases h with h | h
        · exact Or.inl (h ▸ hexDigit_mem _ (Nat.mod_lt _ (by norm_num)))
        · exact Or.inr h
      · simp only [h0, if_false] at h
        rcases ih _ _ c h with h | h
        · exact Or.inl h
        · rcases List.mem_cons.mp h with h | h
          · exact Or.inl (h ▸ hexDigit_mem _ (Nat.mod_lt _ (by norm_num)))
          · exact Or.inr h

/-- C5 (as stated, refuted): with the CRC-32 of `sampleEnv`, the path `/gw2/g.dat` has the
CRC `0x05e2b838`, and its index file is named `5e2b838.idx`, seven digits and eleven
characters, not the zero-padded `05e2b838.idx`; the path `/gw2/a.dat` gets a name of
twelve characters, so the length of the name is not the same for every path. -/
theorem indexFileName_not_fixed_width :
    sampleEnv.compute_crc sampleEnv.INITIAL_CRC (char_str "/gw2/g.dat") 10 = 0x05e2b838 ∧
    indexFileNameOfCrc 0x05e2b838 = "5e2b838.idx" ∧
    (findDatIndex sampleEnv sampleWindow).name = "5e2b838.idx" ∧
    (findDatIndex sampleEnv sampleWindow).name ≠ "05e2b838.idx" ∧
    (findDatIndex sampleEnv sampleWindow).name.length = 11 ∧
    (findDatIndex sampleEnv { sampleWindow with m_datPath := "/gw2/a.dat" }).name
      = "8aa24d98.idx" ∧
    (findDatIndex sampleEnv { sampleWindow with m_datPath := "/gw2/a.dat" }).name.length
      = 12 := by
  decide

/-- C5 (amended): for every archive path, the index file found by `findDatIndex` lies in
the configuration directory and its name depends only on the low 32 bits of the CRC of
the path: it is that number in lowercase hexadecimal without padding (the digits denote
the number, and there are exactly as many as the number needs, one for zero), followed
by `.idx`. The name has between five and twelve characters, and twelve exactly when the
CRC is at least `0x10000000`. -/
theorem findDatIndex_name (env : Env) (w : BrowserWindow S) :
    (findDatIndex env w).dir = env.GetDataDir ∧
    (findDatIndex env w).name
      = indexFileNameOfCrc
          (env.compute_crc env.INITIAL_CRC (char_str w.m_datPath) w.m_datPath.length) ∧
    (∀ crc : Nat,
      indexFileNameOfCrc crc = formatHex (crc % 2 ^ 32) ++ ".idx" ∧
      hexValueFrom 0 (formatHex (crc % 2 ^ 32)).toList = crc % 2 ^ 32 ∧
      (∀ c, c ∈ (formatHex (crc % 2 ^ 32)).toList → c ∈ hexAlphabet) ∧
      (formatHex (crc % 2 ^ 32)).length = Nat.log 16 (crc % 2 ^ 32) + 1 ∧
      (indexFileNameOfCrc crc).length = Nat.log 16 (crc % 2 ^ 32) + 5 ∧
      5 ≤ (indexFileNameOfCrc crc).length ∧
      (indexFileNameOfCrc crc).length ≤ 12 ∧
      ((indexFileNameOfCrc crc).length = 12 ↔ 2 ^ 28 ≤ crc % 2 ^ 32)) := by
  refine ⟨rfl, rfl, fun crc => ?_⟩
  have hlt : crc % 2 ^ 32 < 16 ^ 8 := Nat.mod_lt _ (by norm_num)
  have hlen : (formatHex (crc % 2 ^ 32)).length = Nat.log 16 (crc % 2 ^ 32) + 1 := by
    have h := formatHexAux_length 8 (crc % 2 ^ 32) [] hlt (by norm_num)
    simpa [formatHex, String.length] using h
  have hname : (indexFileNameOfCrc crc).length = Nat.log 16 (crc % 2 ^ 32) + 5 := by
    unfold indexFileNameOfCrc
    rw [String.length_append, hlen]
    rfl
  have hlogLt : ∀ k, 0 < k → crc % 2 ^ 32 < 16 ^ k → Nat.log 16 (crc % 2 ^ 32) < k := by
    intro k hk h
    rcases Nat.eq_zero_or_pos (crc % 2 ^ 32) with h0 | h0
    · rw [h0]; simpa using hk
    · exact Nat.log_lt_of_lt_pow (by omega) h
  have hlog : Nat.log 16 (crc % 2 ^ 32) < 8 := hlogLt 8 (by norm_num) hlt
  have hiff : Nat.log 16 (crc % 2 ^ 32) = 7 ↔ 2 ^ 28 ≤ crc % 2 ^ 32 := by
    constructor
    · intro h
      by_contra hc
      have h2 : crc % 2 ^ 32 < 16 ^ 7 := by norm_num at hc ⊢; omega
      have := hlogLt 7 (by norm_num) h2
      omega
    · intro h
      have h1 : 16 ^ 7 ≤ crc % 2 ^ 32 := by norm_num at h ⊢; omega
      have h2 : 7 ≤ Nat.log 16 (crc % 2 ^ 32) := Nat.le_log_of_pow_le (by norm_num) h1
      omega
  refine ⟨rfl, ?_, ?_, hlen, hname, by omega, by omega, ?_⟩
  · have h := formatHexAux_value 8 (crc % 2 ^ 32) [] hlt (by norm_num)
    simpa [formatHex, hexValueFrom] using h
  · intro c hc
    have h := formatHexAux_mem 8 (crc % 2 ^ 32) [] c (by simpa [formatHex] using hc)
    simpa using h
  · rw [hname, ← hiff]; omega

end IndexFileName

/-! ## The close path -/

section ClosePath

variable {S : Type}

end ClosePath

/-! ## Completion handlers and the scheduler step -/

section Handlers

variable {S : Type}

/-- A quiet extension has the same scheduler-step calls. -/
theorem Quiet.stepCalls_eq {a b : BrowserWindow S} (h : Quiet a b) :
    stepCalls b.calls = stepCalls a.calls := by
  obtain ⟨rest, hr, hq⟩ := h
  rw [hr]
  unfold stepCalls
  rw [List.filter_append]
  have : List.filter isStepCall rest = [] := by
    rw [List.filter_eq_nil_iff]
    intro c hc hs
    cases c <;> simp [isStepCall] at hs
    · exact (hq _ hc _).1 rfl
    · exact (hq _ hc _).2 rfl
  rw [this, List.append_nil]

/-- `indexDat` builds a scan task and hands it to `performTask`. -/
theorem indexDat_eq (impl : TaskImpl S) (w : BrowserWindow S) :
    indexDat impl w
      = (performTask impl (scanTaskIn impl w) (allocated TaskKind.ScanDatTask w)).2 := rfl

/-- Whether a window is fresh depends on its active task and its heap only. -/
theorem FreshFrom.congr {a b : BrowserWindow S} {n : Nat} (h : FreshFrom n a)
    (h1 : b.heapNext = a.heapNext) (h2 : b.m_currentTask = a.m_currentTask) : FreshFrom n b :=
  ⟨h1 ▸ h.1, fun t ht => h.2 t (h2 ▸ ht)⟩

end Handlers

/-! ## Orchestration: index validation, close sequence, opening an archive -/

section Orchestration

variable {S : Type}

/-- C4: `onReadIndexComplete` follows a three-way policy. If the index timestamp is 0 or
the index has no entries, the index is cleared (no entries, highest entry 0), its
timestamp is set to the modification time of the archive, and a scan task is built and
handed to `performTask`. Otherwise, if the highest entry of the index differs from the
number of files of the archive, a scan task is built and handed to `performTask` in a
window whose index is the one found. Otherwise no task is built and the window,
index included, is unchanged. -/
theorem onReadIndexComplete_policy (env : Env) (impl : TaskImpl S) (w : BrowserWindow S) :
    ((w.m_index.datTimestamp = 0 ∨ w.m_index.numEntries = 0) →
      onReadIndexComplete env impl w
          = (performTask impl (scanTaskIn impl w)
              (allocated TaskKind.ScanDatTask
                { w with m_index :=
                  w.m_index.clear.setDatTimestamp (env.wxFileModificationTime w.m_datPath) })).2 ∧
        (w.m_index.clear.setDatTimestamp (env.wxFileModificationTime w.m_datPath)).entries = [] ∧
        (w.m_index.clear.setDatTimestamp (env.wxFileModificationTime w.m_datPath)).datTimestamp
          = env.wxFileModificationTime w.m_datPath ∧
        (w.m_index.clear.setDatTimestamp
          (env.wxFileModificationTime w.m_datPath)).highestMftEntry = 0) ∧
    (w.m_index.datTimestamp ≠ 0 → w.m_index.numEntries ≠ 0 →
      w.m_index.highestMftEntry ≠ w.m_datFile.numFiles →
      onReadIndexComplete env impl w
          = (performTask impl (scanTaskIn impl w) (allocated TaskKind.ScanDatTask w)).2 ∧
        (allocated TaskKind.ScanDatTask w).m_index = w.m_index) ∧
    (w.m_index.datTimestamp ≠ 0 → w.m_index.numEntries ≠ 0 →
      w.m_index.highestMftEntry = w.m_datFile.numFiles →
      onReadIndexComplete env impl w = w) := by
  refine ⟨fun h => ⟨?_, rfl, rfl, rfl⟩, fun h1 h2 h3 => ⟨?_, rfl⟩, fun h1 h2 h3 => ?_⟩
  · have hc : (w.m_index.datTimestamp == 0 || w.m_index.numEntries == 0) = true := by
      rcases h with h | h <;> simp [h]
    unfold onReadIndexComplete
    rw [if_pos hc]
    rfl
  · have hc : ¬ (w.m_index.datTimestamp == 0 || w.m_index.numEntries == 0) = true := by
      simp [h1, h2]
    unfold onReadIndexComplete
    rw [if_neg hc]
    simp [h3, indexDat_eq]
  · have hc : ¬ (w.m_index.datTimestamp == 0 || w.m_index.numEntries == 0) = true := by
      simp [h1, h2]
    unfold onReadIndexComplete
    rw [if_neg hc]
    simp [h3]

/-- Witness for C4: `sampleWindow` holds an index read at time 5 with two entries that is
complete, so nothing happens; with an archive of 150 files a scan is requested. -/
theorem onReadIndexComplete_policy_witness :
    onReadIndexComplete sampleEnv (scriptedImpl okScript) sampleWindow = sampleWindow ∧
    onReadIndexComplete sampleEnv (scriptedImpl okScript)
        { sampleWindow with m_datFile := { isOpen := true, numFiles := 150 } }
      = (performTask (scriptedImpl okScript)
          (scanTaskIn (scriptedImpl okScript)
            { sampleWindow with m_datFile := { isOpen := true, numFiles := 150 } })
          (allocated TaskKind.ScanDatTask
            { sampleWindow with m_datFile := { isOpen := true, numFiles := 150 } })).2 :=
  ⟨(onReadIndexComplete_policy sampleEnv (scriptedImpl okScript) sampleWindow).2.2
      (by decide) (by decide) (by decide),
   ((onReadIndexComplete_policy sampleEnv (scriptedImpl okScript)
      { sampleWindow with m_datFile := { isOpen := true, numFiles := 150 } }).2.1
      (by decide) (by decide) (by decide)).1⟩

/-- While a task that cannot be aborted is active, `openFile` on an archive that opens
clears the index and stamps it with the modification time of the archive; the active
task stays. -/
theorem openFile_while_not_abortable (env : Env) (impl : TaskImpl S) (p_path : String)
    (cur : Task S) (w : BrowserWindow S) (hcur : w.m_currentTask = some cur)
    (hno : impl.canAbort cur.kind cur.state = false)
    (hopen : (env.DatFile_open w.m_datFile p_path).1 = true) :
    (openFile env impl p_path w).m_index
      = { entries := [], datTimestamp := env.wxFileModificationTime p_path,
          highestMftEntry := 0, dirty := true } ∧
    (openFile env impl p_path w).m_currentTask = some cur := by
  simp [openFile, hopen, newTask, performTask, hcur, hno, reIndexDat, indexDat,
    DatIndex.clear, DatIndex.setDatTimestamp]

/-- C10 (the code at the failing input): the write task of `sampleWriteTask`, which cannot
be aborted, is active and the index holds two entries read at time 5; `openFile` on an
archive that opens leaves the write task active, but the index has lost its entries and
carries the modification time of the archive. -/
theorem openFile_clears_index_under_active_task :
    (scriptedImpl okScript).canAbort sampleWriteTask.kind sampleWriteTask.state = false ∧
    (sampleWindowWith sampleWriteTask).m_index.entries.length = 2 ∧
    (sampleWindowWith sampleWriteTask).m_index.datTimestamp = 5 ∧
    (openFile sampleEnv (scriptedImpl okScript) "/gw2/g.dat"
        (sampleWindowWith sampleWriteTask)).m_currentTask = some sampleWriteTask ∧
    (openFile sampleEnv (scriptedImpl okScript) "/gw2/g.dat"
        (sampleWindowWith sampleWriteTask)).m_index.entries = [] ∧
    (openFile sampleEnv (scriptedImpl okScript) "/gw2/g.dat"
        (sampleWindowWith sampleWriteTask)).m_index.datTimestamp = 1700000000 ∧
    (openFile sampleEnv (scriptedImpl okScript) "/gw2/g.dat"
        (sampleWindowWith sampleWriteTask)).calls
      = [Call.construct 1
            (TaskKind.ReadIndexTask "/usr/share/gw2browser/5e2b838.idx" 1700000000),
          Call.delete 1, Call.construct 2 TaskKind.ScanDatTask, Call.delete 2] := by
  decide

end Orchestration

/-! ## Follow-up tasks of a finished task -/

section FollowUp

variable {S : Type}

end FollowUp

/-! ## Close sequences -/

section CloseSequence

variable {S : Type}

end CloseSequence

/-- Witness for C5 (amended): the name for the CRC `0x05e2b838`. -/
theorem findDatIndex_name_witness :
    (indexFileNameOfCrc 0x05e2b838).length = Nat.log 16 (0x05e2b838 % 2 ^ 32) + 5 :=
  ((findDatIndex_name sampleEnv sampleWindow).2.2 0x05e2b838).2.2.2.2.1


end gw2b
